import Mathlib

/-
Shallow embedding of `atlite/resource.py` (asset-resolution and power-curve
smoothing subsystem) together with proofs about the claims on its behaviour.

Python floats are modelled as exact rationals (`ℚ`) on the catalog/resolution
path, and as real numbers (`ℝ`) on the smoothing path, where the Gaussian
kernel needs `Real.exp`, `Real.sqrt` and `Real.pi`.  Python exceptions are
modelled with `Except PyErr`; mutation of the process-wide catalog cache and
the local store is modelled by explicit state passing (the cache before and
after a call, plus a list of performed writes).
-/

set_option autoImplicit false

/-- Python exceptions that the embedded code can raise.  A network failure in
`requests.get` is re-raised unchanged by the `except: raise` block, so fetch
errors are represented by an arbitrary `PyErr` value chosen by the caller. -/
inductive PyErr
  | typeError
  | nameError
  | valueError
  | keyError
  | indexError
  | fileNotFoundError
  | connectionError
deriving DecidableEq, Repr

/-- Model of Python `str.strip()`: remove leading and trailing whitespace.
(Implemented on the character list so that proofs can evaluate it; the core
`String.trim` is not kernel-reducible.) -/
def pyStrip (s : String) : String :=
  ⟨((s.toList.dropWhile Char.isWhitespace).reverse.dropWhile Char.isWhitespace).reverse⟩

/-- Model of `c in s` for a single character. -/
def pyContainsChar (s : String) (c : Char) : Bool :=
  s.toList.contains c

/-- Model of `s.startswith(p)`. -/
def pyStartsWith (s p : String) : Bool :=
  p.toList.isPrefixOf s.toList

/-- Model of the slice `s[n:]` (drop the first `n` characters). -/
def pyDrop (s : String) (n : Nat) : String :=
  ⟨s.toList.drop n⟩

/-- Split a character list on a separator character; like Python
`str.split(sep)`, adjacent separators produce empty parts and the empty
string yields one empty part. -/
def pySplitChar (c : Char) : List Char → List (List Char)
  | [] => [[]]
  | x :: xs =>
    let r := pySplitChar c xs
    if x = c then [] :: r
    else
      match r with
      | [] => [[x]]
      | h :: t => (x :: h) :: t

/-- Model of `s.split(sep)` for a one-character separator. -/
def pySplitOnChar (s : String) (c : Char) : List String :=
  (pySplitChar c s.toList).map (fun l => ⟨l⟩)

/-- Model of Python `str.isdigit()` for ASCII strings: non-empty and all
characters are digits. -/
def isDigitStr (s : String) : Bool :=
  !s.toList.isEmpty && s.toList.all (fun c => c.isDigit)

/-- Decimal value of a digit string. -/
def digitsToNat (l : List Char) : Nat :=
  l.foldl (fun n c => 10 * n + (c.toNat - 48)) 0

/-- Model of Python `int(s)` on a string that passed `isdigit`. -/
def strToInt (s : String) : Int :=
  (digitsToNat s.toList : Int)

/-- Contiguous-sublist test on character lists (needle occurs inside hay). -/
def charsInfixOf (needle hay : List Char) : Bool :=
  (List.range (hay.length + 1)).any (fun i => needle.isPrefixOf (hay.drop i))

/-- Model of the case-insensitive substring test performed by
`Series.str.contains(pat, case=False)` at resource.py:227/229.  (pandas
interprets `pat` as a regular expression; for patterns without regex
metacharacters, as used throughout, this coincides with a plain
case-insensitive substring search.) -/
def containsCI (hay needle : String) : Bool :=
  charsInfixOf (needle.toList.map Char.toLower) (hay.toList.map Char.toLower)

/-- The search-parameter dictionary consumed by `download_windturbineconfig`
(resource.py:224-229); `source`/`filename` are the extra keys inspected by
`get_windturbineconfig`'s dict branch (resource.py:94-103). -/
structure TQuery where
  id : Option Int := none
  name : Option String := none
  manufacturer : Option String := none
  source : Option String := none
  filename : Option String := none
deriving DecidableEq, Repr

/-- The dynamically-typed `turbine` argument: a string, a dict, an int, or
anything else (`other`). -/
inductive TSpec
  | str (s : String)
  | dict (q : TQuery)
  | int (i : Int)
  | other
deriving DecidableEq, Repr

/-- The dynamically-typed `HUB_HEIGHT` value: missing (`None`), a raw string
from the dataset, or a number (after normalization, or numeric in the
dataset). -/
inductive HHVal
  | null
  | str (s : String)
  | num (q : ℚ)
deriving DecidableEq, Repr

/-- A row of the OEDB turbine catalog (resource.py:216-217, 224-251).  The
JSON-encoded curve fields arrive already decoded (`json.loads` is an external
collaborator per the spec); powers are in kW. -/
structure OedbRow where
  id : Int
  turbine_type : String
  manufacturer : String
  hub_height : HHVal
  power_curve_wind_speeds : List ℚ
  power_curve_values : List ℚ
  source : String
  has_power_curve : Bool
deriving DecidableEq, Repr

/-- Warnings emitted through `logger.warning` during row normalization
(resource.py:258, 267). -/
inductive Warn
  | noHubHeight
  | multiHubHeights
deriving DecidableEq, Repr

/-- Diagnostics emitted through `logger.info` for the zero-match and
multi-match outcomes (resource.py:232, 235-237): the ambiguous diagnostic
carries the number of matches and the id/manufacturer/type of the first
(up to) three candidates shown by `.head(3)`. -/
inductive ResolveDiag
  | notFound
  | ambiguous (n : Nat) (cands : List (Int × String × String))
deriving DecidableEq, Repr

/-- The `turbineconf` dict built at resource.py:246-253 (plus the
`HUB_HEIGHTS` key optionally added at line 265). -/
structure TurbineConf where
  name : String
  manufacturer : String
  source : String
  HUB_HEIGHT : HHVal
  HUB_HEIGHTS : Option (List ℚ) := none
  V : List ℚ
  POW : List ℚ
deriving DecidableEq, Repr

/-- Embedding of the inner `as_dict` helper of `download_windturbineconfig`
(resource.py:175-196).  A dict passes through; an int becomes an id query; a
string is stripped and, if it is all digits, becomes an id query.  The
remaining string branch executes `re.split("[\s|_]+", s, maxsplit=1)` where
`s` is a free (never assigned) variable, so evaluating it raises `NameError`.
Any other type falls through to the final `raise TypeError`. -/
def as_dict (t : TSpec) : Except PyErr TQuery :=
  match t with
  | .dict q => .ok q
  | .int i => .ok { id := some i }
  | .str s0 =>
    let s1 := pyStrip s0
    if isDigitStr s1 then .ok { id := some (strToInt s1) }
    else .error .nameError
  | .other => .error .typeError

/-- Where `get_windturbineconfig`'s inner `as_turbineconfig` dispatches a
specification (resource.py:87-108). -/
inductive Route
  | download (spec : TSpec) (store_locally : Bool)
  | readLocal (name : String)
  | err (e : PyErr)
deriving DecidableEq, Repr

/-- Embedding of `as_turbineconfig` (resource.py:87-108): a string starting
with the marker `oedb:` is stripped of the marker and sent to
`download_windturbineconfig(..., store_locally=False)`; any other string is a
local file base name; a dict defaults a missing `source` to `oedb` (with a
logged warning, not modelled as it carries no data) and routes on it, where a
`local` source reads `turbine["filename"]` (raising `KeyError` when absent)
and any other source raises `ValueError`; remaining input types raise
`ValueError`. -/
def as_turbineconfig_route (t : TSpec) : Route :=
  match t with
  | .str s =>
    if pyStartsWith s "oedb:" then .download (.str (pyDrop s ("oedb:".toList.length))) false
    else .readLocal s
  | .dict q =>
    let q1 := if q.source = none then { q with source := some "oedb" } else q
    if q1.source = some "oedb" then .download (.dict q1) false
    else if q1.source = some "local" then
      match q1.filename with
      | some f => .readLocal f
      | none => .err .keyError
    else .err .valueError
  | .int _ => .err .valueError
  | .other => .err .valueError

/-- Embedding of the sequential dataframe filters at resource.py:224-229: an
exact id match when `id` is present, then case-insensitive substring filters
on `turbine_type` and `manufacturer`; a present-but-empty string is falsy for
`turbine.get(...)` and applies no filter. -/
def matchingRows (df : List OedbRow) (q : TQuery) : List OedbRow :=
  let df1 := match q.id with
    | some i => df.filter (fun r => r.id = i)
    | none => df
  let df2 := match q.name with
    | some s => if s = "" then df1 else df1.filter (fun r => containsCI r.turbine_type s)
    | none => df1
  match q.manufacturer with
  | some s => if s = "" then df2 else df2.filter (fun r => containsCI r.manufacturer s)
  | none => df2

/-- Truthiness of a `HUB_HEIGHT` value: Python `not x` is true for `None`,
the empty string and zero. -/
def hhFalsy : HHVal → Bool
  | .null => true
  | .str s => s = ""
  | .num q => q = 0

/-- Truncation of a rational toward zero, as C-style casting to an integer
dtype does. -/
def qtruncZ (q : ℚ) : Int :=
  Int.tdiv q.num (q.den : Int)

/-- Model of `np.mean(hh, dtype=int)` (resource.py:266): the values are cast
to the integer dtype (truncation toward zero), summed in that dtype, and the
true-division result is cast back to the integer dtype — i.e. the sum of the
truncated values divided by the count, truncated toward zero. -/
def npMeanInt (xs : List ℚ) : ℚ :=
  ((Int.tdiv ((xs.map qtruncZ).sum) (xs.length : Int)) : ℚ)

/-- Model of Python `float(s)` restricted to the decimal literals
`digits[.digits]` that occur as hub heights; anything else is a parse
failure (`ValueError`). -/
def parseQ (s : String) : Option ℚ :=
  match pySplitOnChar s '.' with
  | [a] => if isDigitStr a then some ((digitsToNat a.toList : ℚ)) else none
  | [a, b] =>
    if isDigitStr a && (b.toList.isEmpty || isDigitStr b) then
      some ((digitsToNat a.toList : ℚ) + (digitsToNat b.toList : ℚ) / ((10 : ℚ) ^ b.toList.length))
    else none
  | _ => none

/-- Parse every entry of the semicolon-split hub-height list with `float`;
the Python list comprehension raises as soon as one entry fails. -/
def parseFloats : List String → Option (List ℚ)
  | [] => some []
  | t :: ts =>
    match parseQ (pyStrip t), parseFloats ts with
    | some x, some xs => some (x :: xs)
    | _, _ => none

/-- Embedding of the hub-height convenience clean-up at resource.py:255-271.
Returns the final `HUB_HEIGHT` value, the optional `HUB_HEIGHTS` list and the
warnings emitted.  A falsy value is replaced by `100` with a warning; a
string containing `;` is stripped, split on `;`, its non-empty parts parsed
with `float` (`ValueError` on failure), and either averaged with
`np.mean(..., dtype=int)` (more than one part, second warning) or replaced by
the single part (`hh[0]` raising `IndexError` when every part was empty). -/
def normalizeHubHeight (h0 : HHVal) : Except PyErr (HHVal × Option (List ℚ) × List Warn) :=
  let hw : HHVal × List Warn :=
    if hhFalsy h0 then (.num 100, [.noHubHeight]) else (h0, [])
  match hw.1 with
  | .str s =>
    if pyContainsChar s ';' then
      match parseFloats ((pySplitOnChar (pyStrip s) ';').filter (fun t => t ≠ "")) with
      | none => .error .valueError
      | some hh =>
        if 1 < hh.length then
          .ok (.num (npMeanInt hh), some hh, hw.2 ++ [.multiHubHeights])
        else
          match hh with
          | [] => .error .indexError
          | x :: _ => .ok (.num x, none, hw.2)
    else .ok (hw.1, none, hw.2)
  | _ => .ok (hw.1, none, hw.2)

/-- The character translation applied to the stored filename
(resource.py:274-275): `/`, space and `-` become `_`. -/
def translateChars (s : String) : String :=
  ⟨s.toList.map (fun c => if c = '/' || c = ' ' || c = '-' then '_' else c)⟩

/-- Filename under which a resolved configuration is stored locally
(resource.py:274-275). -/
def oedbFilename (conf : TurbineConf) : String :=
  translateChars (conf.manufacturer ++ "_" ++ conf.name ++ ".yaml")

/-- The fixed catalog URL (resource.py:201). -/
def OEDB_URL : String :=
  "https://openenergy-platform.org/api/v0/schema/supply/tables/turbine_library/rows"

/-- Decidable equality for `Except` results (not derived in core). -/
instance {ε α : Type} [DecidableEq ε] [DecidableEq α] : DecidableEq (Except ε α) := fun a b =>
  match a, b with
  | .error e, .error f =>
    if h : e = f then .isTrue (by rw [h]) else .isFalse (by simp [h])
  | .ok x, .ok y =>
    if h : x = y then .isTrue (by rw [h]) else .isFalse (by simp [h])
  | .error _, .ok _ => .isFalse (by simp)
  | .ok _, .error _ => .isFalse (by simp)

/-- Result of resolving a query against an (already cached) catalog table:
the returned value (or raised error), the zero/multi-match diagnostic, the
hub-height warnings, the files written to the local store, and whether the
resource registry was refreshed. -/
structure ResolveOut where
  ret : Except PyErr (Option TurbineConf)
  diag : Option ResolveDiag
  warns : List Warn
  writes : List (String × TurbineConf)
  refreshed : Bool
deriving DecidableEq, Repr

/-- The `turbineconf` dict built from the unique matching row
(resource.py:244-271): stripped names, provenance string, wind speeds as
decoded, powers divided by 1000 (kW → MW), and the hub-height fields as left
by the normalization step `nh`. -/
def oedbTurbineConf (ds : OedbRow) (nh : HHVal × Option (List ℚ) × List Warn) : TurbineConf :=
  { name := pyStrip ds.turbine_type
    manufacturer := pyStrip ds.manufacturer
    source := "Original: " ++ ds.source ++ ". Via OEDB " ++ OEDB_URL
    HUB_HEIGHT := nh.1
    HUB_HEIGHTS := nh.2.1
    V := ds.power_curve_wind_speeds
    POW := ds.power_curve_values.map (fun x => x / 1000) }

/-- Embedding of resource.py:224-284 given the cached table `df`: filter,
apply the zero/one/many outcome policy, normalize the unique row into a
`turbineconf` (powers divided by 1000, names stripped, provenance string,
hub-height clean-up), and optionally store it locally (which also refreshes
the resource registry via `_update_resource_dictionaries`). -/
def resolveFromTable (df : List OedbRow) (q : TQuery) (store_locally : Bool) : ResolveOut :=
  match matchingRows df q with
  | [] => ⟨.ok none, some .notFound, [], [], false⟩
  | [ds] =>
    match normalizeHubHeight ds.hub_height with
    | .error e => ⟨.error e, none, [], [], false⟩
    | .ok nh =>
      let conf := oedbTurbineConf ds nh
      ⟨.ok (some conf), none, nh.2.2,
        if store_locally then [(oedbFilename conf, conf)] else [], store_locally⟩
  | ds1 :: ds2 :: rest =>
    let dfq := ds1 :: ds2 :: rest
    ⟨.ok none,
      some (.ambiguous dfq.length
        ((dfq.take 3).map (fun r => (r.id, r.manufacturer, r.turbine_type)))),
      [], [], false⟩

/-- Full observable outcome of one `download_windturbineconfig` call: the
returned value (or raised error), the catalog cache after the call, whether a
remote fetch was issued, and the diagnostics/effects of `resolveFromTable`. -/
structure DLResult where
  ret : Except PyErr (Option TurbineConf)
  cache : Option (List OedbRow)
  fetched : Bool
  diag : Option ResolveDiag
  warns : List Warn
  writes : List (String × TurbineConf)
  refreshed : Bool
deriving DecidableEq, Repr

/-- Embedding of `download_windturbineconfig` (resource.py:146-284).  The
process-wide `_oedb_turbines` cache is threaded explicitly: `cache` is its
value before the call.  `fetch` is the outcome the remote `requests.get` call
would have (error = transport failure, re-raised unchanged by the bare
`except: raise`); it is consulted only when the cache is unpopulated, and a
successful fetch is filtered to rows with `has_power_curve` before being
cached. -/
def download_windturbineconfig (cache : Option (List OedbRow))
    (fetch : Except PyErr (List OedbRow)) (turbine : TSpec)
    (store_locally : Bool) : DLResult :=
  match as_dict turbine with
  | .error e => ⟨.error e, cache, false, none, [], [], false⟩
  | .ok q =>
    match cache with
    | some df =>
      let r := resolveFromTable df q store_locally
      ⟨r.ret, some df, false, r.diag, r.warns, r.writes, r.refreshed⟩
    | none =>
      match fetch with
      | .error e => ⟨.error e, none, true, none, [], [], false⟩
      | .ok rows =>
        let df := rows.filter (fun r => r.has_power_curve)
        let r := resolveFromTable df q store_locally
        ⟨r.ret, some df, true, r.diag, r.warns, r.writes, r.refreshed⟩

/-- Model of `np.max` on a sequence: `none` on the empty sequence (where
numpy raises `ValueError`), otherwise the maximum. -/
def listMax {α : Type} [LinearOrder α] : List α → Option α
  | [] => none
  | x :: xs => some (xs.foldl max x)

/-- Embedding of the inner `read_windturbineconfig` (resource.py:82-85): the
local store is a map from file base name to the parsed YAML record; a missing
file raises `FileNotFoundError` from `open`. -/
def read_windturbineconfig (fs : String → Option TurbineConf) (turbine : String) :
    Except PyErr TurbineConf :=
  match fs turbine with
  | some tc => .ok tc
  | none => .error .fileNotFoundError

/-- Embedding of `as_turbineconfig` applied to a specification
(resource.py:87-110): route, then either read locally or download without
storing.  Returns the configuration outcome (`none` models the `None` that
`download_windturbineconfig` returns on a zero/multi match) and the catalog
cache after the call. -/
def as_turbineconfig (fs : String → Option TurbineConf) (cache : Option (List OedbRow))
    (fetch : Except PyErr (List OedbRow)) (t : TSpec) :
    Except PyErr (Option TurbineConf) × Option (List OedbRow) :=
  match as_turbineconfig_route t with
  | .download spec _ =>
    let d := download_windturbineconfig cache fetch spec false
    (d.ret, d.cache)
  | .readLocal name =>
    ((read_windturbineconfig fs name).map some, cache)
  | .err e => (.error e, cache)

/-- The record returned by `get_windturbineconfig` (resource.py:112-113). -/
structure TurbineOut where
  V : List ℚ
  POW : List ℚ
  hub_height : HHVal
  P : ℚ
deriving DecidableEq, Repr

/-- Embedding of `get_windturbineconfig` (resource.py:64-113): resolve the
specification via `as_turbineconfig`, then build the returned record with
`P = np.max(POW)`.  `itemgetter(...)(None)` raises `TypeError` when the
download resolved to no result, and `np.max` raises `ValueError` on an empty
power sequence. -/
def get_windturbineconfig (fs : String → Option TurbineConf) (cache : Option (List OedbRow))
    (fetch : Except PyErr (List OedbRow)) (t : TSpec) :
    Except PyErr TurbineOut × Option (List OedbRow) :=
  let a := as_turbineconfig fs cache fetch t
  match a.1 with
  | .error e => (.error e, a.2)
  | .ok none => (.error .typeError, a.2)
  | .ok (some tc) =>
    match listMax tc.POW with
    | none => (.error .valueError, a.2)
    | some m => (.ok { V := tc.V, POW := tc.POW, hub_height := tc.HUB_HEIGHT, P := m }, a.2)

/-- A solar panel record, keyed by model (spec data model §3). -/
inductive PanelConf
  | huld (efficiency : ℚ)
  | bofinger (A B C : ℚ)
deriving DecidableEq, Repr

/-- Embedding of `get_solarpanelconfig` (resource.py:115-123).  The body
computes `path = solarpanel_dir / f"{panel}.yaml"` and then executes
`open(res_name, "r")`, where `res_name` is not bound anywhere in the
function's scope, so every call raises `NameError` before the local store
`fs` is ever consulted (and `yaml.safe_load(path)` would in any case be
handed the path object, not the file contents). -/
def get_solarpanelconfig (_fs : String → Option PanelConf) (solarpanel_dir : String)
    (panel : String) : Except PyErr PanelConf :=
  let _path := solarpanel_dir ++ "/" ++ panel ++ ".yaml"
  .error .nameError

/-- Model of `np.linspace(a, b, n)` (endpoint included): the points
`a + (b - a) * i / (n - 1)` for `i = 0, …, n-1`. -/
noncomputable def linspaceR (a b : ℝ) (n : Nat) : List ℝ :=
  (List.range n).map (fun (i : Nat) => a + (b - a) * (i : ℝ) / ((n : ℝ) - 1))

/-- Model of `np.interp(x, xp, fp)` for one sample point: piecewise-linear
interpolation on the (sorted) grid `xp`, clamping to the first/last value of
`fp` outside the grid; `0` on malformed input (where numpy raises). -/
noncomputable def interpR (x : ℝ) : List ℝ → List ℝ → ℝ
  | x0 :: x1 :: xs, f0 :: f1 :: fs =>
    if x ≤ x0 then f0
    else if x ≤ x1 then f0 + (f1 - f0) * (x - x0) / (x1 - x0)
    else interpR x (x1 :: xs) (f1 :: fs)
  | [_], [f0] => f0
  | _, _ => 0

/-- The Gaussian kernel of `windturbine_smooth` (resource.py:318-321). -/
noncomputable def kernelR (Delta_v sigma v0 : ℝ) : ℝ :=
  1 / Real.sqrt (2 * Real.pi * sigma * sigma) *
    Real.exp (-(v0 - Delta_v) * (v0 - Delta_v) / (2 * sigma * sigma))

/-- One coefficient of the full discrete convolution of two sequences
(out-of-range indices contribute `0`). -/
noncomputable def convAt (a k : List ℝ) (j : Nat) : ℝ :=
  ∑ m ∈ Finset.range (j + 1), a.getD m 0 * k.getD (j - m) 0

/-- Model of `fftconvolve(a, k, mode='same')` (resource.py:332) in exact
arithmetic: the full discrete convolution restricted to `a.length` central
coefficients, starting at offset `(k.length - 1) / 2`. -/
noncomputable def fftconvolveSame (a k : List ℝ) : List ℝ :=
  (List.range a.length).map (fun n => convAt a k (n + (k.length - 1) / 2))

/-- Embedding of the inner `smooth` function of `windturbine_smooth`
(resource.py:323-338): interpolate the power curve and evaluate the kernel on
the uniform grid from −50 to 50 m/s with 1001 points, convolve and scale by
the grid spacing 0.1, then resample onto the output grid from 0 to 35 m/s
with 72 points and scale by `eta`. -/
noncomputable def smoothR (eta Delta_v sigma : ℝ) (velocities power : List ℝ) :
    List ℝ × List ℝ :=
  let velocities_reg := linspaceR (-50) 50 1001
  let power_reg := velocities_reg.map (fun v => interpR v velocities power)
  let kernel_reg := velocities_reg.map (kernelR Delta_v sigma)
  let convolution := (fftconvolveSame power_reg kernel_reg).map (fun c => 0.1 * c)
  let velocities_new := linspaceR 0 35 72
  let power_new := velocities_new.map (fun v => eta * interpR v velocities_reg convolution)
  (velocities_new, power_new)

/-- A value stored in the `turbine` dict handled by `windturbine_smooth`:
a float, a float sequence, or a string. -/
inductive PVal
  | num (x : ℝ)
  | arr (xs : List ℝ)
  | str (s : String)

/-- A Python dict with string keys, modelled as an association list in
insertion order. -/
abbrev PyDict (α : Type) : Type := List (String × α)

/-- First-match lookup, `d.get(k)` / `d[k]`. -/
def alookup {α : Type} : PyDict α → String → Option α
  | [], _ => none
  | (k1, v) :: rest, k => if k1 = k then some v else alookup rest k

/-- In-place item assignment `d[k] = v`: overwrite the existing entry or
append a new one (Python dicts preserve insertion order). -/
def ainsert {α : Type} : PyDict α → String → α → PyDict α
  | [], k, v => [(k, v)]
  | (k1, v1) :: rest, k, v =>
    if k1 = k then (k, v) :: rest else (k1, v1) :: ainsert rest k v

/-- Model of `d.setdefault(k, v)`: return the existing value, or insert `v`
and return it.  The returned pair is (value, dict after the call). -/
def asetdefault {α : Type} (d : PyDict α) (k : String) (v : α) : α × PyDict α :=
  match alookup d k with
  | some x => (x, d)
  | none => (v, d ++ [(k, v)])

/-- Embedding of `windturbine_smooth` (resource.py:286-349) for a dict-typed
`params` argument.  The three `params.setdefault` calls mutate the caller's
`params` object; `turbine = turbine.copy()` rebinds the local name to a fresh
copy, so the subsequent item assignments of `V`, `POW` and `P` leave the
caller's `turbine` object untouched.  The result is
`(returned dict or none on a missing/ill-typed curve, caller's turbine after
the call, caller's params after the call)`; a `turbine` without list-valued
`V` and `POW` entries makes the interpolation raise (`none`), after the
`params` defaults were already inserted.  The oversmoothing check at
resource.py:344-347 only logs and never alters the returned dict, so it is
not modelled. -/
noncomputable def windturbine_smooth (turbine : PyDict PVal) (params : PyDict ℝ) :
    Option (PyDict PVal) × PyDict PVal × PyDict ℝ :=
  let sd1 := asetdefault params "eta" 0.95
  let sd2 := asetdefault sd1.2 "Delta_v" 1.27
  let sd3 := asetdefault sd2.2 "sigma" 2.29
  let result : Option (PyDict PVal) :=
    match alookup turbine "V", alookup turbine "POW" with
    | some (.arr V), some (.arr POW) =>
      let vp := smoothR sd1.1 sd2.1 sd3.1 V POW
      let t1 := ainsert turbine "V" (.arr vp.1)
      let t2 := ainsert t1 "POW" (.arr vp.2)
      some (ainsert t2 "P" (.num ((listMax vp.2).getD 0)))
    | _, _ => none
  (result, turbine, sd3.2)

section MaxLemmas

variable {α : Type} [LinearOrder α]

theorem le_foldl_max (xs : List α) (x : α) : x ≤ xs.foldl max x := by
  induction xs generalizing x with
  | nil => simp
  | cons a as ih =>
    calc x ≤ max x a := le_max_left _ _
    _ ≤ as.foldl max (max x a) := ih _

theorem mem_le_foldl_max (xs : List α) (x : α) : ∀ y ∈ xs, y ≤ xs.foldl max x := by
  induction xs generalizing x with
  | nil => simp
  | cons a as ih =>
    intro y hy
    rcases List.mem_cons.mp hy with rfl | hy'
    · calc y ≤ max x y := le_max_right _ _
      _ ≤ as.foldl max (max x y) := le_foldl_max _ _
    · exact ih (max x a) y hy'

theorem foldl_max_mem (xs : List α) (x : α) : xs.foldl max x ∈ x :: xs := by
  induction xs generalizing x with
  | nil => simp
  | cons a as ih =>
    have h := ih (max x a)
    rcases List.mem_cons.mp h with he | hm
    · rcases max_choice x a with hx | ha
      · exact List.mem_cons.mpr (Or.inl (by rw [List.foldl, he, hx]))
      · refine List.mem_cons.mpr (Or.inr ?_)
        exact List.mem_cons.mpr (Or.inl (by rw [List.foldl, he, ha]))
    · exact List.mem_cons.mpr (Or.inr (List.mem_cons.mpr (Or.inr hm)))

/-- Soundness of the `np.max` model: a returned value is a member of the list
and an upper bound of it. -/
theorem listMax_spec (l : List α) (m : α) (h : listMax l = some m) :
    m ∈ l ∧ ∀ y ∈ l, y ≤ m := by
  cases l with
  | nil => simp [listMax] at h
  | cons x xs =>
    have hm : m = xs.foldl max x := by
      simpa [listMax] using h.symm
    subst hm
    refine ⟨foldl_max_mem xs x, ?_⟩
    intro y hy
    rcases List.mem_cons.mp hy with rfl | hy'
    · exact le_foldl_max xs y
    · exact mem_le_foldl_max xs x y hy'

theorem listMax_of_ne_nil (l : List α) (h : l ≠ []) : ∃ m, listMax l = some m := by
  cases l with
  | nil => exact absurd rfl h
  | cons x xs => exact ⟨xs.foldl max x, rfl⟩

end MaxLemmas

section DictLemmas

variable {α : Type}

theorem alookup_append_left (d1 d2 : PyDict α) (j : String) (x : α)
    (h : alookup d1 j = some x) : alookup (d1 ++ d2) j = some x := by
  induction d1 with
  | nil => simp [alookup] at h
  | cons kv rest ih =>
    obtain ⟨k1, v1⟩ := kv
    by_cases he : k1 = j
    · simpa [alookup, he] using by simpa [alookup, he] using h
    · simp only [alookup, he, if_false, List.cons_append] at h ⊢
      exact ih h

theorem alookup_append_right (d1 d2 : PyDict α) (j : String)
    (h : alookup d1 j = none) : alookup (d1 ++ d2) j = alookup d2 j := by
  induction d1 with
  | nil => simp
  | cons kv rest ih =>
    obtain ⟨k1, v1⟩ := kv
    by_cases he : k1 = j
    · simp [alookup, he] at h
    · simp only [alookup, he, if_false, List.cons_append] at h ⊢
      exact ih h

/-- `setdefault` never destroys an existing entry (of any key). -/
theorem asetdefault_preserves (d : PyDict α) (k : String) (v : α) (j : String) (x : α)
    (h : alookup d j = some x) : alookup (asetdefault d k v).2 j = some x := by
  unfold asetdefault
  cases hk : alookup d k with
  | some y => simpa using h
  | none => simpa using alookup_append_left d [(k, v)] j x h

/-- After `d.setdefault(k, v)`, key `k` maps to its old value, or to `v` if it
was absent. -/
theorem asetdefault_lookup_self (d : PyDict α) (k : String) (v : α) :
    alookup (asetdefault d k v).2 k = some ((alookup d k).getD v) := by
  unfold asetdefault
  cases hk : alookup d k with
  | some y => simpa using hk
  | none =>
    simp only [Option.getD_none]
    have := alookup_append_right d [(k, v)] k hk
    simpa [alookup] using this

theorem alookup_ainsert_self (d : PyDict α) (k : String) (v : α) :
    alookup (ainsert d k v) k = some v := by
  induction d with
  | nil => simp [ainsert, alookup]
  | cons kv rest ih =>
    obtain ⟨k1, v1⟩ := kv
    by_cases he : k1 = k
    · simp [ainsert, alookup, he]
    · simp [ainsert, alookup, he, ih]

theorem alookup_ainsert_ne (d : PyDict α) (k j : String) (v : α) (h : k ≠ j) :
    alookup (ainsert d k v) j = alookup d j := by
  induction d with
  | nil => simp [ainsert, alookup, h]
  | cons kv rest ih =>
    obtain ⟨k1, v1⟩ := kv
    by_cases he : k1 = k
    · simp [ainsert, alookup, he, h]
    · simp [ainsert, alookup, he, ih]

end DictLemmas

theorem linspaceR_length (a b : ℝ) (n : Nat) : (linspaceR a b n).length = n := by
  rw [linspaceR, List.length_map, List.length_range]

/-- C9: for every input curve and parameter choice, `smooth` returns its
output on the fixed velocity grid `np.linspace(0, 35, 72)`: 72 points, every
point between 0 and 35 m/s, with both endpoints present.  Consequently
re-running smoothing on an already-smoothed curve with the same parameters
does not change the output domain bounds or point count: the output grid of
the second run equals that of the first. -/
theorem smooth_fixed_output_grid (eta Delta_v sigma : ℝ) (velocities power : List ℝ) :
    (smoothR eta Delta_v sigma velocities power).1 = linspaceR 0 35 72 ∧
    (smoothR eta Delta_v sigma velocities power).1.length = 72 ∧
    (0 : ℝ) ∈ (smoothR eta Delta_v sigma velocities power).1 ∧
    (35 : ℝ) ∈ (smoothR eta Delta_v sigma velocities power).1 ∧
    (∀ x ∈ (smoothR eta Delta_v sigma velocities power).1, 0 ≤ x ∧ x ≤ 35) ∧
    (smoothR eta Delta_v sigma
        (smoothR eta Delta_v sigma velocities power).1
        (smoothR eta Delta_v sigma velocities power).2).1 =
      (smoothR eta Delta_v sigma velocities power).1 := by
  have hfix : (smoothR eta Delta_v sigma velocities power).1 = linspaceR 0 35 72 := rfl
  have h71 : ((72 : Nat) : ℝ) - 1 = 71 := by norm_num
  refine ⟨hfix, ?_, ?_, ?_, ?_, rfl⟩
  · rw [hfix, linspaceR_length]
  · rw [hfix, linspaceR]
    refine List.mem_map.mpr ⟨0, List.mem_range.mpr (by norm_num), ?_⟩
    norm_num
  · rw [hfix, linspaceR]
    refine List.mem_map.mpr ⟨71, List.mem_range.mpr (by norm_num), ?_⟩
    rw [h71]
    norm_num
  · rw [hfix, linspaceR]
    intro x hx
    obtain ⟨i, hi, rfl⟩ := List.mem_map.mp hx
    have hi' : (i : ℝ) ≤ 71 := by
      exact_mod_cast Nat.lt_succ_iff.mp (List.mem_range.mp hi)
    have hi0 : (0 : ℝ) ≤ (i : ℝ) := Nat.cast_nonneg i
    have heq : (0 : ℝ) + (35 - 0) * (i : ℝ) / (((72 : Nat) : ℝ) - 1) =
        35 * (i : ℝ) / 71 := by
      rw [h71]; ring
    rw [heq]
    constructor
    · positivity
    · rw [div_le_iff₀ (by norm_num : (0 : ℝ) < 71)]
      nlinarith

/-- Witness for `smooth_fixed_output_grid` at a concrete input, discharging
the membership hypothesis of the bounds conjunct with the grid point 0. -/
theorem smooth_fixed_output_grid_witness :
    (0 : ℝ) ∈ (smoothR 0.95 1.27 2.29 [0, 25] [0, 1]).1 ∧
    (0 : ℝ) ≤ 0 ∧ (0 : ℝ) ≤ 35 := by
  have h := smooth_fixed_output_grid 0.95 1.27 2.29 [0, 25] [0, 1]
  have hb := h.2.2.2.2.1 0 h.2.2.1
  exact ⟨h.2.2.1, hb.1, hb.2⟩

/-- C3: the catalog cache is populated at most once.  If the cache is empty
and the fetch fails, the error is propagated unchanged and the cache stays
unpopulated; if the fetch succeeds, exactly the rows with a usable power
curve are cached.  When the cache is populated, the call never fetches, the
outcome is independent of the remote, the cache is unchanged — and in
particular any call made after a successful first fetch issues no new
fetch. -/
theorem oedb_cache_lifecycle (q : TQuery) (sl : Bool) :
    (∀ e : PyErr,
      (download_windturbineconfig none (.error e) (.dict q) sl).ret = .error e ∧
      (download_windturbineconfig none (.error e) (.dict q) sl).cache = none ∧
      (download_windturbineconfig none (.error e) (.dict q) sl).fetched = true) ∧
    (∀ rows : List OedbRow,
      (download_windturbineconfig none (.ok rows) (.dict q) sl).cache =
        some (rows.filter (fun r => r.has_power_curve)) ∧
      (download_windturbineconfig none (.ok rows) (.dict q) sl).fetched = true) ∧
    (∀ (t : List OedbRow) (f1 f2 : Except PyErr (List OedbRow)),
      download_windturbineconfig (some t) f1 (.dict q) sl =
        download_windturbineconfig (some t) f2 (.dict q) sl ∧
      (download_windturbineconfig (some t) f1 (.dict q) sl).fetched = false ∧
      (download_windturbineconfig (some t) f1 (.dict q) sl).cache = some t) ∧
    (∀ (rows : List OedbRow) (q2 : TQuery) (sl2 : Bool) (f2 : Except PyErr (List OedbRow)),
      (download_windturbineconfig
          (download_windturbineconfig none (.ok rows) (.dict q) sl).cache
          f2 (.dict q2) sl2).fetched = false) :=
  ⟨fun _ => ⟨rfl, rfl, rfl⟩,
   fun _ => ⟨rfl, rfl⟩,
   fun _ _ _ => ⟨rfl, rfl, rfl⟩,
   fun _ _ _ _ => rfl⟩

/-- Shape of `resolveFromTable` when the query matches exactly one row whose
hub height normalizes successfully. -/
theorem resolveFromTable_single (rows : List OedbRow) (q : TQuery) (sl : Bool)
    (r : OedbRow) (nh : HHVal × Option (List ℚ) × List Warn)
    (hm : matchingRows rows q = [r]) (hn : normalizeHubHeight r.hub_height = .ok nh) :
    resolveFromTable rows q sl =
      ⟨.ok (some (oedbTurbineConf r nh)), none, nh.2.2,
        if sl then [(oedbFilename (oedbTurbineConf r nh), oedbTurbineConf r nh)] else [],
        sl⟩ := by
  unfold resolveFromTable
  rw [hm]
  simp only [hn]

/-- Shape of `resolveFromTable` when the query matches exactly one row whose
hub height fails to normalize (the `float` parse raises). -/
theorem resolveFromTable_single_err (rows : List OedbRow) (q : TQuery) (sl : Bool)
    (r : OedbRow) (e : PyErr)
    (hm : matchingRows rows q = [r]) (hn : normalizeHubHeight r.hub_height = .error e) :
    resolveFromTable rows q sl = ⟨.error e, none, [], [], false⟩ := by
  unfold resolveFromTable
  rw [hm]
  simp only [hn]

/-- C7: for every query matching exactly one catalog row, a returned turbine
record has a power sequence equal to the row's `power_curve_values` divided
elementwise by 1000 (kW converted to MW), and its velocities are the row's
`power_curve_wind_speeds`. -/
theorem resolved_power_kW_to_MW (rows : List OedbRow) (q : TQuery)
    (fetch : Except PyErr (List OedbRow)) (sl : Bool) (r : OedbRow) (conf : TurbineConf)
    (hm : matchingRows rows q = [r])
    (hret : (download_windturbineconfig (some rows) fetch (.dict q) sl).ret =
      .ok (some conf)) :
    conf.POW = r.power_curve_values.map (fun x => x / 1000) ∧
    conf.V = r.power_curve_wind_speeds := by
  have hret' : (resolveFromTable rows q sl).ret = .ok (some conf) := hret
  rcases hn : normalizeHubHeight r.hub_height with e | nh
  · rw [resolveFromTable_single_err rows q sl r e hm hn] at hret'
    exact absurd hret' (by simp)
  · rw [resolveFromTable_single rows q sl r nh hm hn] at hret'
    simp only [Except.ok.injEq, Option.some.injEq] at hret'
    rw [← hret']
    exact ⟨rfl, rfl⟩

/-- Witness for `resolved_power_kW_to_MW` on a one-row catalog queried by
id. -/
theorem resolved_power_kW_to_MW_witness :
    matchingRows
        [{ id := 10, turbine_type := "E-53/800", manufacturer := "Enercon",
           hub_height := .num 73, power_curve_wind_speeds := [0, 25],
           power_curve_values := [0, 800], source := "manufacturer",
           has_power_curve := true }]
        { id := some 10 } =
      [{ id := 10, turbine_type := "E-53/800", manufacturer := "Enercon",
         hub_height := .num 73, power_curve_wind_speeds := [0, 25],
         power_curve_values := [0, 800], source := "manufacturer",
         has_power_curve := true }] ∧
    ∃ conf : TurbineConf,
      (download_windturbineconfig
          (some [{ id := 10, turbine_type := "E-53/800", manufacturer := "Enercon",
                   hub_height := .num 73, power_curve_wind_speeds := [0, 25],
                   power_curve_values := [0, 800], source := "manufacturer",
                   has_power_curve := true }])
          (.ok []) (.dict { id := some 10 }) true).ret = .ok (some conf) ∧
      conf.POW = ([0, 800] : List ℚ).map (fun x => x / 1000) ∧
      conf.V = ([0, 25] : List ℚ) := by
  have hm : matchingRows
      [{ id := 10, turbine_type := "E-53/800", manufacturer := "Enercon",
         hub_height := .num 73, power_curve_wind_speeds := [0, 25],
         power_curve_values := [0, 800], source := "manufacturer",
         has_power_curve := true }]
      { id := some 10 } =
      [{ id := 10, turbine_type := "E-53/800", manufacturer := "Enercon",
         hub_height := .num 73, power_curve_wind_speeds := [0, 25],
         power_curve_values := [0, 800], source := "manufacturer",
         has_power_curve := true }] := by decide
  have hn : normalizeHubHeight (HHVal.num 73) = .ok (.num 73, none, []) := by decide
  have hret : (download_windturbineconfig
      (some [{ id := 10, turbine_type := "E-53/800", manufacturer := "Enercon",
               hub_height := .num 73, power_curve_wind_speeds := [0, 25],
               power_curve_values := [0, 800], source := "manufacturer",
               has_power_curve := true }])
      (.ok []) (.dict { id := some 10 }) true).ret =
      .ok (some (oedbTurbineConf
        { id := 10, turbine_type := "E-53/800", manufacturer := "Enercon",
          hub_height := .num 73, power_curve_wind_speeds := [0, 25],
          power_curve_values := [0, 800], source := "manufacturer",
          has_power_curve := true }
        (.num 73, none, []))) := by
    show (resolveFromTable _ _ _).ret = _
    rw [resolveFromTable_single _ _ _ _ _ hm hn]
  have h := resolved_power_kW_to_MW _ _ (.ok []) true _ _ hm hret
  exact ⟨hm, ⟨_, hret, h.1, h.2⟩⟩

/-- C8: for every query matching more than one catalog row, resolution
returns the no-result outcome with an ambiguity diagnostic, performs no write
to local storage — even when persistence was requested — and does not refresh
the resource registry; the cache is also left unchanged. -/
theorem ambiguous_no_store (rows : List OedbRow) (q : TQuery)
    (fetch : Except PyErr (List OedbRow)) (sl : Bool)
    (hm : 1 < (matchingRows rows q).length) :
    (download_windturbineconfig (some rows) fetch (.dict q) sl).ret = .ok none ∧
    (download_windturbineconfig (some rows) fetch (.dict q) sl).writes = [] ∧
    (download_windturbineconfig (some rows) fetch (.dict q) sl).refreshed = false ∧
    (download_windturbineconfig (some rows) fetch (.dict q) sl).cache = some rows ∧
    ∃ n cands,
      (download_windturbineconfig (some rows) fetch (.dict q) sl).diag =
        some (.ambiguous n cands) := by
  rcases hl : matchingRows rows q with _ | ⟨a, _ | ⟨b, rest⟩⟩
  · rw [hl] at hm; simp at hm
  · rw [hl] at hm; simp at hm
  · have h1 : (download_windturbineconfig (some rows) fetch (.dict q) sl).ret =
        (resolveFromTable rows q sl).ret := rfl
    have h2 : (download_windturbineconfig (some rows) fetch (.dict q) sl).writes =
        (resolveFromTable rows q sl).writes := rfl
    have h3 : (download_windturbineconfig (some rows) fetch (.dict q) sl).refreshed =
        (resolveFromTable rows q sl).refreshed := rfl
    have h5 : (download_windturbineconfig (some rows) fetch (.dict q) sl).diag =
        (resolveFromTable rows q sl).diag := rfl
    have hshape : resolveFromTable rows q sl =
        ⟨.ok none,
          some (.ambiguous (a :: b :: rest).length
            (((a :: b :: rest).take 3).map (fun r => (r.id, r.manufacturer, r.turbine_type)))),
          [], [], false⟩ := by
      unfold resolveFromTable
      rw [hl]
    refine ⟨?_, ?_, ?_, rfl, ?_⟩
    · rw [h1, hshape]
    · rw [h2, hshape]
    · rw [h3, hshape]
    · exact ⟨_, _, by rw [h5, hshape]⟩

/-- Witness for `ambiguous_no_store` on a two-row catalog matched by a shared
name fragment, with persistence requested. -/
theorem ambiguous_no_store_witness :
    1 < (matchingRows
        [{ id := 1, turbine_type := "E-53/800", manufacturer := "Enercon",
           hub_height := .num 73, power_curve_wind_speeds := [0, 25],
           power_curve_values := [0, 800], source := "a", has_power_curve := true },
         { id := 2, turbine_type := "E-82/2000", manufacturer := "Enercon",
           hub_height := .num 98, power_curve_wind_speeds := [0, 25],
           power_curve_values := [0, 2000], source := "b", has_power_curve := true }]
        { name := some "e-" }).length ∧
    (download_windturbineconfig
        (some [{ id := 1, turbine_type := "E-53/800", manufacturer := "Enercon",
                 hub_height := .num 73, power_curve_wind_speeds := [0, 25],
                 power_curve_values := [0, 800], source := "a", has_power_curve := true },
               { id := 2, turbine_type := "E-82/2000", manufacturer := "Enercon",
                 hub_height := .num 98, power_curve_wind_speeds := [0, 25],
                 power_curve_values := [0, 2000], source := "b", has_power_curve := true }])
        (.ok []) (.dict { name := some "e-" }) true).ret = .ok none ∧
    (download_windturbineconfig
        (some [{ id := 1, turbine_type := "E-53/800", manufacturer := "Enercon",
                 hub_height := .num 73, power_curve_wind_speeds := [0, 25],
                 power_curve_values := [0, 800], source := "a", has_power_curve := true },
               { id := 2, turbine_type := "E-82/2000", manufacturer := "Enercon",
                 hub_height := .num 98, power_curve_wind_speeds := [0, 25],
                 power_curve_values := [0, 2000], source := "b", has_power_curve := true }])
        (.ok []) (.dict { name := some "e-" }) true).writes = [] := by
  have h := ambiguous_no_store
    [{ id := 1, turbine_type := "E-53/800", manufacturer := "Enercon",
       hub_height := .num 73, power_curve_wind_speeds := [0, 25],
       power_curve_values := [0, 800], source := "a", has_power_curve := true },
     { id := 2, turbine_type := "E-82/2000", manufacturer := "Enercon",
       hub_height := .num 98, power_curve_wind_speeds := [0, 25],
       power_curve_values := [0, 2000], source := "b", has_power_curve := true }]
    { name := some "e-" } (.ok []) true (by decide)
  exact ⟨by decide, h.1, h.2.1⟩

/-- C1 counterexample: the zero-match and the multi-match outcomes are NOT
distinguishable results to the caller.  On a catalog where the query matches
no row and on one where it matches two rows, `download_windturbineconfig`
returns the very same value (`None`): only the logged diagnostics differ. -/
theorem resolver_outcome_counterexample :
    (matchingRows ([] : List OedbRow) { name := some "e-" }).length = 0 ∧
    (matchingRows
        [{ id := 1, turbine_type := "E-53/800", manufacturer := "Enercon",
           hub_height := .num 73, power_curve_wind_speeds := [0, 25],
           power_curve_values := [0, 800], source := "a", has_power_curve := true },
         { id := 2, turbine_type := "E-82/2000", manufacturer := "Enercon",
           hub_height := .num 98, power_curve_wind_speeds := [0, 25],
           power_curve_values := [0, 2000], source := "b", has_power_curve := true }]
        { name := some "e-" }).length = 2 ∧
    (download_windturbineconfig (some []) (.ok []) (.dict { name := some "e-" }) true).ret =
      .ok none ∧
    (download_windturbineconfig
        (some [{ id := 1, turbine_type := "E-53/800", manufacturer := "Enercon",
                 hub_height := .num 73, power_curve_wind_speeds := [0, 25],
                 power_curve_values := [0, 800], source := "a", has_power_curve := true },
               { id := 2, turbine_type := "E-82/2000", manufacturer := "Enercon",
                 hub_height := .num 98, power_curve_wind_speeds := [0, 25],
                 power_curve_values := [0, 2000], source := "b", has_power_curve := true }])
        (.ok []) (.dict { name := some "e-" }) true).ret = .ok none ∧
    (download_windturbineconfig (some []) (.ok []) (.dict { name := some "e-" }) true).ret =
      (download_windturbineconfig
        (some [{ id := 1, turbine_type := "E-53/800", manufacturer := "Enercon",
                 hub_height := .num 73, power_curve_wind_speeds := [0, 25],
                 power_curve_values := [0, 800], source := "a", has_power_curve := true },
               { id := 2, turbine_type := "E-82/2000", manufacturer := "Enercon",
                 hub_height := .num 98, power_curve_wind_speeds := [0, 25],
                 power_curve_values := [0, 2000], source := "b", has_power_curve := true }])
        (.ok []) (.dict { name := some "e-" }) true).ret := by
  refine ⟨by decide, by decide, by decide, by decide, by decide⟩

/-- C1 (amended): the outcome policy of catalog resolution.  Zero matching
rows yield the empty result with a `NotFound` diagnostic; more than one
matching row yields the empty result with an `Ambiguous` diagnostic carrying
the match count and the first (up to) three candidates; exactly one matching
row (whose hub height normalizes) yields the resolved record with no failure
diagnostic.  `NotFound` and `Ambiguous` are reported as logged diagnostics,
not raised as errors, and both return the same empty value (`None`) to the
caller — they are distinguishable in the diagnostics only, not in the
returned result. -/
theorem resolver_outcome_policy (rows : List OedbRow) (q : TQuery)
    (fetch : Except PyErr (List OedbRow)) (sl : Bool) :
    ((matchingRows rows q).length = 0 →
      (download_windturbineconfig (some rows) fetch (.dict q) sl).ret = .ok none ∧
      (download_windturbineconfig (some rows) fetch (.dict q) sl).diag =
        some .notFound) ∧
    (1 < (matchingRows rows q).length →
      (download_windturbineconfig (some rows) fetch (.dict q) sl).ret = .ok none ∧
      (download_windturbineconfig (some rows) fetch (.dict q) sl).diag =
        some (.ambiguous (matchingRows rows q).length
          (((matchingRows rows q).take 3).map
            (fun r => (r.id, r.manufacturer, r.turbine_type))))) ∧
    (∀ (r : OedbRow) (nh : HHVal × Option (List ℚ) × List Warn),
      matchingRows rows q = [r] → normalizeHubHeight r.hub_height = .ok nh →
      (download_windturbineconfig (some rows) fetch (.dict q) sl).ret =
        .ok (some (oedbTurbineConf r nh)) ∧
      (download_windturbineconfig (some rows) fetch (.dict q) sl).diag = none) := by
  refine ⟨?_, ?_, ?_⟩
  · intro h0
    rcases hl : matchingRows rows q with _ | ⟨a, rest⟩
    · have hshape : resolveFromTable rows q sl = ⟨.ok none, some .notFound, [], [], false⟩ := by
        unfold resolveFromTable
        rw [hl]
      constructor
      · show (resolveFromTable rows q sl).ret = _
        rw [hshape]
      · show (resolveFromTable rows q sl).diag = _
        rw [hshape]
    · rw [hl] at h0
      simp at h0
  · intro h1
    rcases hl : matchingRows rows q with _ | ⟨a, _ | ⟨b, rest⟩⟩
    · rw [hl] at h1; simp at h1
    · rw [hl] at h1; simp at h1
    · have hshape : resolveFromTable rows q sl =
          ⟨.ok none,
            some (.ambiguous (a :: b :: rest).length
              (((a :: b :: rest).take 3).map
                (fun r => (r.id, r.manufacturer, r.turbine_type)))),
            [], [], false⟩ := by
        unfold resolveFromTable
        rw [hl]
      constructor
      · show (resolveFromTable rows q sl).ret = _
        rw [hshape]
      · show (resolveFromTable rows q sl).diag = _
        rw [hshape]
  · intro r nh hm hn
    have hshape := resolveFromTable_single rows q sl r nh hm hn
    constructor
    · show (resolveFromTable rows q sl).ret = _
      rw [hshape]
    · show (resolveFromTable rows q sl).diag = _
      rw [hshape]

/-- Witness for `resolver_outcome_policy`, exercising all three outcomes on
concrete catalogs. -/
theorem resolver_outcome_policy_witness :
    (download_windturbineconfig (some []) (.ok []) (.dict { name := some "e-" }) true).diag =
      some .notFound ∧
    (download_windturbineconfig
        (some [{ id := 1, turbine_type := "E-53/800", manufacturer := "Enercon",
                 hub_height := .num 73, power_curve_wind_speeds := [0, 25],
                 power_curve_values := [0, 800], source := "a", has_power_curve := true },
               { id := 2, turbine_type := "E-82/2000", manufacturer := "Enercon",
                 hub_height := .num 98, power_curve_wind_speeds := [0, 25],
                 power_curve_values := [0, 2000], source := "b", has_power_curve := true }])
        (.ok []) (.dict { name := some "e-" }) true).ret = .ok none ∧
    (download_windturbineconfig
        (some [{ id := 10, turbine_type := "E-53/800", manufacturer := "Enercon",
                 hub_height := .num 73, power_curve_wind_speeds := [0, 25],
                 power_curve_values := [0, 800], source := "manufacturer",
                 has_power_curve := true }])
        (.ok []) (.dict { id := some 10 }) false).diag = none := by
  refine ⟨((resolver_outcome_policy [] { name := some "e-" } (.ok []) true).1
      (by decide)).2, ?_, ?_⟩
  · exact ((resolver_outcome_policy
      [{ id := 1, turbine_type := "E-53/800", manufacturer := "Enercon",
         hub_height := .num 73, power_curve_wind_speeds := [0, 25],
         power_curve_values := [0, 800], source := "a", has_power_curve := true },
       { id := 2, turbine_type := "E-82/2000", manufacturer := "Enercon",
         hub_height := .num 98, power_curve_wind_speeds := [0, 25],
         power_curve_values := [0, 2000], source := "b", has_power_curve := true }]
      { name := some "e-" } (.ok []) true).2.1 (by decide)).1
  · exact ((resolver_outcome_policy
      [{ id := 10, turbine_type := "E-53/800", manufacturer := "Enercon",
         hub_height := .num 73, power_curve_wind_speeds := [0, 25],
         power_curve_values := [0, 800], source := "manufacturer",
         has_power_curve := true }]
      { id := some 10 } (.ok []) false).2.2
      { id := 10, turbine_type := "E-53/800", manufacturer := "Enercon",
        hub_height := .num 73, power_curve_wind_speeds := [0, 25],
        power_curve_values := [0, 800], source := "manufacturer",
        has_power_curve := true }
      (.num 73, none, []) (by decide) (by decide)).2

/-- C6: during normalization of a uniquely resolved catalog row, the hub
height string `"100;120"` yields the scalar hub height `110` (the integer
mean) with the full set `[100.0, 120.0]` retained in `HUB_HEIGHTS`, together
with the multi-height warning; an absent hub height yields the default
scalar `100`, no retained set, and the missing-hub-height warning. -/
theorem hub_height_normalization (rows : List OedbRow) (q : TQuery)
    (fetch : Except PyErr (List OedbRow)) (sl : Bool) (r : OedbRow)
    (hm : matchingRows rows q = [r]) :
    (r.hub_height = .str "100;120" →
      ∃ conf : TurbineConf,
        (download_windturbineconfig (some rows) fetch (.dict q) sl).ret =
          .ok (some conf) ∧
        conf.HUB_HEIGHT = .num 110 ∧
        conf.HUB_HEIGHTS = some [100, 120] ∧
        (download_windturbineconfig (some rows) fetch (.dict q) sl).warns =
          [.multiHubHeights]) ∧
    (r.hub_height = .null →
      ∃ conf : TurbineConf,
        (download_windturbineconfig (some rows) fetch (.dict q) sl).ret =
          .ok (some conf) ∧
        conf.HUB_HEIGHT = .num 100 ∧
        conf.HUB_HEIGHTS = none ∧
        (download_windturbineconfig (some rows) fetch (.dict q) sl).warns =
          [.noHubHeight]) := by
  constructor
  · intro hh
    have hn : normalizeHubHeight r.hub_height =
        .ok (.num 110, some [100, 120], [.multiHubHeights]) := by
      rw [hh]; decide
    have hshape := resolveFromTable_single rows q sl r _ hm hn
    refine ⟨oedbTurbineConf r (.num 110, some [100, 120], [.multiHubHeights]),
      ?_, rfl, rfl, ?_⟩
    · show (resolveFromTable rows q sl).ret = _
      rw [hshape]
    · show (resolveFromTable rows q sl).warns = _
      rw [hshape]
  · intro hh
    have hn : normalizeHubHeight r.hub_height =
        .ok (.num 100, none, [.noHubHeight]) := by
      rw [hh]; decide
    have hshape := resolveFromTable_single rows q sl r _ hm hn
    refine ⟨oedbTurbineConf r (.num 100, none, [.noHubHeight]), ?_, rfl, rfl, ?_⟩
    · show (resolveFromTable rows q sl).ret = _
      rw [hshape]
    · show (resolveFromTable rows q sl).warns = _
      rw [hshape]

/-- Witness for `hub_height_normalization`, at a one-row catalog with hub
height `"100;120"` and at one with the hub height missing. -/
theorem hub_height_normalization_witness :
    (∃ conf : TurbineConf,
      (download_windturbineconfig
          (some [{ id := 3, turbine_type := "T100", manufacturer := "Maker",
                   hub_height := .str "100;120", power_curve_wind_speeds := [0, 25],
                   power_curve_values := [0, 500], source := "a",
                   has_power_curve := true }])
          (.ok []) (.dict { id := some 3 }) false).ret = .ok (some conf) ∧
      conf.HUB_HEIGHT = .num 110 ∧
      conf.HUB_HEIGHTS = some [100, 120]) ∧
    (∃ conf : TurbineConf,
      (download_windturbineconfig
          (some [{ id := 4, turbine_type := "T200", manufacturer := "Maker",
                   hub_height := .null, power_curve_wind_speeds := [0, 25],
                   power_curve_values := [0, 500], source := "a",
                   has_power_curve := true }])
          (.ok []) (.dict { id := some 4 }) false).ret = .ok (some conf) ∧
      conf.HUB_HEIGHT = .num 100 ∧
      conf.HUB_HEIGHTS = none) := by
  constructor
  · obtain ⟨conf, h1, h2, h3, _⟩ :=
      (hub_height_normalization
        [{ id := 3, turbine_type := "T100", manufacturer := "Maker",
           hub_height := .str "100;120", power_curve_wind_speeds := [0, 25],
           power_curve_values := [0, 500], source := "a", has_power_curve := true }]
        { id := some 3 } (.ok []) false
        { id := 3, turbine_type := "T100", manufacturer := "Maker",
          hub_height := .str "100;120", power_curve_wind_speeds := [0, 25],
          power_curve_values := [0, 500], source := "a", has_power_curve := true }
        (by decide)).1 rfl
    exact ⟨conf, h1, h2, h3⟩
  · obtain ⟨conf, h1, h2, h3, _⟩ :=
      (hub_height_normalization
        [{ id := 4, turbine_type := "T200", manufacturer := "Maker",
           hub_height := .null, power_curve_wind_speeds := [0, 25],
           power_curve_values := [0, 500], source := "a", has_power_curve := true }]
        { id := some 4 } (.ok []) false
        { id := 4, turbine_type := "T200", manufacturer := "Maker",
          hub_height := .null, power_curve_wind_speeds := [0, 25],
          power_curve_values := [0, 500], source := "a", has_power_curve := true }
        (by decide)).2 rfl
    exact ⟨conf, h1, h2, h3⟩

theorem asetdefault_lookup_none_ne {α : Type} (d : PyDict α) (k : String) (v : α)
    (j : String) (hne : j ≠ k) (h : alookup d j = none) :
    alookup (asetdefault d k v).2 j = none := by
  unfold asetdefault
  cases hk : alookup d k with
  | some y => simpa using h
  | none =>
    have h2 := alookup_append_right d [(k, v)] j h
    simp only [h2]
    show (if k = j then some v else alookup [] j) = none
    rw [if_neg (fun hh => hne hh.symm)]
    rfl

/-- The dict produced by the three item assignments of `windturbine_smooth`
exposes `POW` and a `P` that is the maximum of `POW`. -/
theorem pdict_P_max (turbine : PyDict PVal) (v pw : List ℝ) (hpw : pw ≠ []) :
    ∃ P : ℝ,
      alookup (ainsert (ainsert (ainsert turbine "V" (.arr v)) "POW" (.arr pw))
        "P" (.num ((listMax pw).getD 0))) "POW" = some (.arr pw) ∧
      alookup (ainsert (ainsert (ainsert turbine "V" (.arr v)) "POW" (.arr pw))
        "P" (.num ((listMax pw).getD 0))) "P" = some (.num P) ∧
      listMax pw = some P ∧ P ∈ pw ∧ ∀ y ∈ pw, y ≤ P := by
  obtain ⟨m, hmax⟩ := listMax_of_ne_nil pw hpw
  obtain ⟨hmem, hub⟩ := listMax_spec pw m hmax
  refine ⟨m, ?_, ?_, hmax, hmem, hub⟩
  · rw [alookup_ainsert_ne _ "P" "POW" _ (by decide)]
    exact alookup_ainsert_self _ "POW" _
  · rw [alookup_ainsert_self, hmax]
    rfl

theorem smoothR_snd_length (eta Delta_v sigma : ℝ) (velocities power : List ℝ) :
    (smoothR eta Delta_v sigma velocities power).2.length = 72 := by
  simp only [smoothR]
  rw [List.length_map, linspaceR_length]

/-- C2: the rated power field equals the maximum of the power sequence, both
in the record returned by `get_windturbineconfig` and in the dict returned by
`windturbine_smooth`: `P` is a member of `POW` and an upper bound of it. -/
theorem rated_power_is_max :
    (∀ (fs : String → Option TurbineConf) (cache : Option (List OedbRow))
        (fetch : Except PyErr (List OedbRow)) (t : TSpec) (out : TurbineOut)
        (st : Option (List OedbRow)),
      get_windturbineconfig fs cache fetch t = (.ok out, st) →
      listMax out.POW = some out.P ∧ out.P ∈ out.POW ∧ ∀ y ∈ out.POW, y ≤ out.P) ∧
    (∀ (turbine : PyDict PVal) (params : PyDict ℝ) (res : PyDict PVal),
      (windturbine_smooth turbine params).1 = some res →
      ∃ (pw : List ℝ) (P : ℝ),
        alookup res "POW" = some (.arr pw) ∧ alookup res "P" = some (.num P) ∧
        listMax pw = some P ∧ P ∈ pw ∧ ∀ y ∈ pw, y ≤ P) := by
  constructor
  · intro fs cache fetch t out st h
    simp only [get_windturbineconfig] at h
    rcases ha : (as_turbineconfig fs cache fetch t).1 with e | oc
    · simp only [ha] at h
      exact Except.noConfusion (congrArg Prod.fst h)
    · rcases oc with _ | tc
      · simp only [ha] at h
        exact Except.noConfusion (congrArg Prod.fst h)
      · simp only [ha] at h
        rcases hl : listMax tc.POW with _ | m
        · simp only [hl] at h
          exact Except.noConfusion (congrArg Prod.fst h)
        · simp only [hl] at h
          have h1 : TurbineOut.mk tc.V tc.POW tc.HUB_HEIGHT m = out :=
            Except.ok.inj (congrArg Prod.fst h)
          subst h1
          exact ⟨hl, (listMax_spec tc.POW m hl).1, (listMax_spec tc.POW m hl).2⟩
  · intro turbine params res h
    simp only [windturbine_smooth] at h
    rcases hv : alookup turbine "V" with _ | v <;>
      rcases hp : alookup turbine "POW" with _ | p
    · simp only [hv, hp] at h
      exact Option.noConfusion h
    · simp only [hv, hp] at h
      exact Option.noConfusion h
    · rcases v with x | V | s <;> simp only [hv, hp] at h <;> exact Option.noConfusion h
    · rcases v with x | V | s
      · simp only [hv, hp] at h
        exact Option.noConfusion h
      · rcases p with y | POW | s2
        · simp only [hv, hp] at h
          exact Option.noConfusion h
        · simp only [hv, hp, Option.some.injEq] at h
          subst h
          have hne : (smoothR (asetdefault params "eta" 0.95).1
              (asetdefault (asetdefault params "eta" 0.95).2 "Delta_v" 1.27).1
              (asetdefault (asetdefault (asetdefault params "eta" 0.95).2
                "Delta_v" 1.27).2 "sigma" 2.29).1 V POW).2 ≠ [] := by
            intro h0
            have hlen := smoothR_snd_length (asetdefault params "eta" 0.95).1
              (asetdefault (asetdefault params "eta" 0.95).2 "Delta_v" 1.27).1
              (asetdefault (asetdefault (asetdefault params "eta" 0.95).2
                "Delta_v" 1.27).2 "sigma" 2.29).1 V POW
            rw [h0] at hlen
            simp at hlen
          exact ⟨_, pdict_P_max turbine _ _ hne⟩
        · simp only [hv, hp] at h
          exact Option.noConfusion h
      · simp only [hv, hp] at h
        exact Option.noConfusion h

/-- Witness for `rated_power_is_max`: a local load of a concrete turbine
record, and a smoothing call on a concrete turbine dict. -/
theorem rated_power_is_max_witness :
    (∃ (out : TurbineOut) (st : Option (List OedbRow)),
      get_windturbineconfig
        (fun _ => some { name := "t", manufacturer := "m", source := "s",
                         HUB_HEIGHT := .num 100, HUB_HEIGHTS := none,
                         V := [0, 10, 20], POW := [0, 3, 2] })
        none (.ok []) (.str "myturbine") = (.ok out, st) ∧
      listMax out.POW = some out.P ∧ out.P ∈ out.POW) ∧
    (∃ res : PyDict PVal,
      (windturbine_smooth [("V", PVal.arr [0, 10]), ("POW", PVal.arr [0, 1])] []).1 =
        some res ∧
      ∃ (pw : List ℝ) (P : ℝ),
        alookup res "POW" = some (.arr pw) ∧ alookup res "P" = some (.num P) ∧
        listMax pw = some P) := by
  constructor
  · have h := rated_power_is_max.1
      (fun _ => some { name := "t", manufacturer := "m", source := "s",
                       HUB_HEIGHT := .num 100, HUB_HEIGHTS := none,
                       V := [0, 10, 20], POW := [0, 3, 2] })
      none (.ok []) (.str "myturbine") _ _ rfl
    exact ⟨_, _, rfl, h.1, h.2.1⟩
  · obtain ⟨pw, P, h1, h2, h3, -, -⟩ := rated_power_is_max.2
      [("V", PVal.arr [0, 10]), ("POW", PVal.arr [0, 1])] [] _ rfl
    exact ⟨_, rfl, pw, P, h1, h2, h3⟩

/-- C10: `windturbine_smooth` never mutates the caller's turbine dict (the
local name is rebound to a copy before the `V`/`POW`/`P` assignments), but it
does mutate the caller's params dict: existing entries survive, and absent
`eta`, `Delta_v` and `sigma` keys are inserted with their defaults 0.95,
1.27 and 2.29. -/
theorem windturbine_smooth_frame (turbine : PyDict PVal) (params : PyDict ℝ) :
    (windturbine_smooth turbine params).2.1 = turbine ∧
    (∀ (k : String) (v : ℝ), alookup params k = some v →
      alookup (windturbine_smooth turbine params).2.2 k = some v) ∧
    (alookup params "eta" = none →
      alookup (windturbine_smooth turbine params).2.2 "eta" = some 0.95) ∧
    (alookup params "Delta_v" = none →
      alookup (windturbine_smooth turbine params).2.2 "Delta_v" = some 1.27) ∧
    (alookup params "sigma" = none →
      alookup (windturbine_smooth turbine params).2.2 "sigma" = some 2.29) := by
  have h22 : (windturbine_smooth turbine params).2.2 =
      (asetdefault (asetdefault (asetdefault params "eta" 0.95).2
        "Delta_v" 1.27).2 "sigma" 2.29).2 := rfl
  refine ⟨rfl, ?_, ?_, ?_, ?_⟩
  · intro k v h
    rw [h22]
    exact asetdefault_preserves _ _ _ _ _
      (asetdefault_preserves _ _ _ _ _ (asetdefault_preserves _ _ _ _ _ h))
  · intro h
    rw [h22]
    have h1 : alookup (asetdefault params "eta" 0.95).2 "eta" = some 0.95 := by
      rw [asetdefault_lookup_self, h]
      rfl
    exact asetdefault_preserves _ _ _ _ _ (asetdefault_preserves _ _ _ _ _ h1)
  · intro h
    rw [h22]
    have h0 : alookup (asetdefault params "eta" 0.95).2 "Delta_v" = none :=
      asetdefault_lookup_none_ne _ _ _ _ (by decide) h
    have h1 : alookup (asetdefault (asetdefault params "eta" 0.95).2
        "Delta_v" 1.27).2 "Delta_v" = some 1.27 := by
      rw [asetdefault_lookup_self, h0]
      rfl
    exact asetdefault_preserves _ _ _ _ _ h1
  · intro h
    rw [h22]
    have h0 : alookup (asetdefault params "eta" 0.95).2 "sigma" = none :=
      asetdefault_lookup_none_ne _ _ _ _ (by decide) h
    have h1 : alookup (asetdefault (asetdefault params "eta" 0.95).2
        "Delta_v" 1.27).2 "sigma" = none :=
      asetdefault_lookup_none_ne _ _ _ _ (by decide) h0
    rw [asetdefault_lookup_self, h1]
    rfl

/-- Witness for `windturbine_smooth_frame` on a concrete turbine dict and a
params dict holding one unrelated entry and none of the three defaults. -/
theorem windturbine_smooth_frame_witness :
    (windturbine_smooth [("V", PVal.arr [0, 10])] [("x", 5)]).2.1 =
      [("V", PVal.arr [0, 10])] ∧
    alookup (windturbine_smooth [("V", PVal.arr [0, 10])] [("x", 5)]).2.2 "x" = some 5 ∧
    alookup (windturbine_smooth [("V", PVal.arr [0, 10])] [("x", 5)]).2.2 "eta" =
      some 0.95 ∧
    alookup (windturbine_smooth [("V", PVal.arr [0, 10])] [("x", 5)]).2.2 "Delta_v" =
      some 1.27 ∧
    alookup (windturbine_smooth [("V", PVal.arr [0, 10])] [("x", 5)]).2.2 "sigma" =
      some 2.29 := by
  have h := windturbine_smooth_frame [("V", PVal.arr [0, 10])] [("x", 5)]
  exact ⟨h.1, h.2.1 "x" 5 rfl, h.2.2.1 rfl, h.2.2.2.1 rfl, h.2.2.2.2 rfl⟩

/-- C4 (code evaluation): the marker `oedb:` is stripped and the remaining
text routed to the remote download, and a digits-only remainder does become
an id query; but every non-digit remainder makes `as_dict` raise `NameError`
(its free-text branch reads the unassigned variable `s`), so no
name/manufacturer query is ever built, contrary to the documented intent. -/
theorem remote_name_parsing_code_evaluation :
    as_turbineconfig_route (.str "oedb:Enercon E-53") =
      .download (.str "Enercon E-53") false ∧
    as_dict (.str "Enercon E-53") = .error .nameError ∧
    as_dict (.str "E-53") = .error .nameError ∧
    as_turbineconfig_route (.str "oedb:10") = .download (.str "10") false ∧
    as_dict (.str "10") = .ok { id := some 10 } ∧
    as_dict (.str " 421 ") = .ok { id := some 421 } := by
  decide

/-- C5 (code evaluation): `get_solarpanelconfig` raises `NameError` on every
input — the `open` call reads the unassigned variable `res_name` — so it
never reads the requested `<panel>.yaml` from the local store, whatever the
store contains. -/
theorem solarpanel_read_raises_nameerror (fs : String → Option PanelConf)
    (solarpanel_dir panel : String) :
    get_solarpanelconfig fs solarpanel_dir panel = .error .nameError :=
  rfl
